import Mathlib

/-!
Verification of the feature-encoding and risk-classification pipeline of the
AQI-Dashboard backend (`backend/train_model.py` and `backend/main.py`),
shallowly embedded in Lean 4.

Modelling choices:
* A raw feature column is a `List (Option String)`; a missing cell is `none`.
  `df[col].fillna("Unknown")` is `canonicalize`.
* `sklearn.preprocessing.LabelEncoder.fit` stores the sorted list of distinct
  observed values (`numpy.unique`); it is embedded as `Finset.sort (· ≤ ·)`
  over the column's `toFinset`.  `le.transform([v])[0]` for an in-vocabulary
  `v` is the index of `v` in that sorted list.  Python compares strings by
  code point, as Lean's `String` order does.
* Machine floats are embedded as rationals: probabilities and percentages
  are `ℚ`.  (`round(x, 1)` in Python rounds ties to even on binary floats;
  no claim below depends on tie behaviour, so `round1` uses Mathlib's
  `round`.)
* The index draws of `np.random.choice(ids_1, size=len(X_0))` in the
  oversampling step of `train_model.py` come from the global NumPy random
  state, which the script never seeds; the draw sequence is therefore an
  explicit input `choices : List Nat` of the embedded balancer, constrained
  to what `np.random.choice` can return (length `len(X_0)`, entries
  `< len(X_1)`).
* The trained RandomForest itself is external library code (sklearn); where
  a claim needs it (inference purity), `model.predict_proba` is an abstract
  function `List Nat → ℚ × ℚ` held in the server state.
-/

/-- `df[col].fillna("Unknown")` (train_model.py, line 59). -/
def canonicalize (col : List (Option String)) : List String :=
  col.map (fun v => v.getD "Unknown")

/-- A fitted `sklearn.preprocessing.LabelEncoder`: its `classes_` array,
a sorted list of the distinct labels observed at fit time. -/
structure Encoder where
  classes : List String
deriving DecidableEq, Repr

/-- Python's string comparison, used by `numpy.unique` when sorting the
distinct labels: lexicographic on the code-point sequences.  (Embedded via
the lexicographic order on `List Char` rather than Mathlib's `String ≤`,
whose iterator-based definition does not reduce in the kernel; the two
agree on every string.) -/
def strLe (a b : String) : Prop :=
  a.data ≤ b.data

instance : DecidableRel strLe :=
  fun a b => inferInstanceAs (Decidable (a.data ≤ b.data))

instance : IsTotal String strLe :=
  ⟨fun a b => le_total a.data b.data⟩

instance : IsTrans String strLe :=
  ⟨fun _ _ _ hab hbc => le_trans (α := List Char) hab hbc⟩

instance : IsAntisymm String strLe := by
  refine ⟨fun a b hab hba => ?_⟩
  have h : a.data = b.data := le_antisymm (α := List Char) hab hba
  cases a; cases b; exact congrArg String.mk h

instance : IsRefl String strLe :=
  ⟨fun a => le_refl a.data⟩

/-- `LabelEncoder().fit(col)`: `classes_` is `numpy.unique(col)`, the sorted
deduplicated observed labels (train_model.py, lines 58-59). -/
def fitEncoder (col : List String) : Encoder :=
  ⟨List.insertionSort strLe col.dedup⟩

/-- `le.transform([v])[0]` for a single value: the index of `v` in
`le.classes_`. -/
def Encoder.transform (e : Encoder) (v : String) : Nat :=
  e.classes.indexOf v

/-- Inference-time encoding of one raw answer (main.py, lines 216-222):
`if val in le.classes_: int(le.transform([val])[0]) else: 0`. -/
def encode (e : Encoder) (v : String) : Nat :=
  if v ∈ e.classes then e.transform v else 0

/-- Risk tiering of the rounded probability percentage
(main.py, lines 228-233). -/
def riskLevel (risk_pct : ℚ) : String :=
  if risk_pct < 35 then "Low Risk"
  else if risk_pct < 55 then "Moderate Risk"
  else "High Risk"

/-- `round(x, 1)` (main.py, line 226). -/
def round1 (x : ℚ) : ℚ :=
  (round (x * 10) : ℤ) / 10

/-- One labelled training row: the 10-integer feature vector paired with its
binary label (a row of `X` plus the matching entry of `y`). -/
abbrev Sample := List Nat × Nat

/-- `X[y == lab]` paired with `y[y == lab]` (train_model.py, lines 83-86):
the rows whose label is `lab`, in corpus order. -/
def classRows (lab : Nat) (ts : List Sample) : List Sample :=
  ts.filter (fun s => s.2 == lab)

/-- The manual random-oversampling step (train_model.py, lines 82-98):
`choices = np.random.choice(np.arange(len(X_1)), size=len(X_0))`, then
`pd.concat([X_0, X_1.iloc[choices]])` with labels
`np.concatenate([y_0, y_1[choices]])`.  The draws `choices` are an explicit
input because the script never seeds the global NumPy random state; the
`getD` default is unreachable for the index ranges `np.random.choice`
returns. -/
def oversample (ts : List Sample) (choices : List Nat) : List Sample :=
  classRows 0 ts ++ choices.map (fun i => (classRows 1 ts).getD i ([], 0))

/-- `POSITIVE_CLASS` (train_model.py, line 44). -/
def POSITIVE_CLASS : String := "It is a Disease"

/-- `y_raw = df[TARGET_COL].apply(lambda x: "Yes" if x == POSITIVE_CLASS
else "No")` (train_model.py, line 64). -/
def yRaw (targets : List String) : List String :=
  targets.map (fun x => if x = POSITIVE_CLASS then "Yes" else "No")

/-- `y = le_target.fit_transform(y_raw)` (train_model.py, line 65):
fit a LabelEncoder on the mapped target column and transform every entry. -/
def trainLabels (targets : List String) : List Nat :=
  (yRaw targets).map ((fitEncoder (yRaw targets)).transform)

/-- One iteration of the feature-encoding loop
`X[col] = le.fit_transform(df[col].fillna("Unknown"))` (train_model.py,
lines 57-60), with an explicit error channel in its type.  sklearn's
`LabelEncoder` performs no emptiness or content validation on a string
column — fitting cannot raise there, including on an empty column — so the
embedded step is the `Except.ok` of the fitted encoder and the encoded
column; the error branch of the type is where a configuration error would
be signalled, and is never produced. -/
def fitColumn (col : List (Option String)) : Except String (Encoder × List Nat) :=
  Except.ok (fitEncoder (canonicalize col),
    (canonicalize col).map (fitEncoder (canonicalize col)).transform)

/-- `FEATURE_COLS` (train_model.py lines 36-41, identical in main.py
lines 40-45). -/
def FEATURE_COLS : List String :=
  ["Age Group", "Housing Type", "Dust Entry Frequency",
   "Worst Pollution Season", "Morning Chest Heaviness",
   "Wheezing Sound", "Eye/Throat Irritation",
   "Open Drains Nearby", "Foul Smell Daily", "Construction Pollution"]

/-- The ten raw string answers of one `/api/predict` request
(main.py, lines 189-200); all ten are required query parameters. -/
structure PredictRequest where
  age_group : String
  housing_type : String
  dust_entry : String
  season : String
  chest_heaviness : String
  wheezing : String
  eye_irritation : String
  open_drains : String
  foul_smell : String
  construction : String
deriving DecidableEq

/-- The `user_inputs` dict (main.py, lines 202-213), as its association
list in insertion order; the keys are exactly `FEATURE_COLS` in order. -/
def userInputs (r : PredictRequest) : List (String × String) :=
  [("Age Group", r.age_group), ("Housing Type", r.housing_type),
   ("Dust Entry Frequency", r.dust_entry), ("Worst Pollution Season", r.season),
   ("Morning Chest Heaviness", r.chest_heaviness), ("Wheezing Sound", r.wheezing),
   ("Eye/Throat Irritation", r.eye_irritation), ("Open Drains Nearby", r.open_drains),
   ("Foul Smell Daily", r.foul_smell), ("Construction Pollution", r.construction)]

/-- The process-wide state the endpoint reads (main.py, lines 62-63): the
loaded artifact.  `model` stands for `model.predict_proba` restricted to a
single row, returning the pair `[p0, p1]`; the RandomForest internals are
sklearn library code, so the trained classifier is abstract here. -/
structure ServerState where
  model : List Nat → ℚ × ℚ
  encoders : String → Encoder

/-- The `encoded_values` loop (main.py, lines 215-222): for each feature
column in order, look up its encoder and the raw answer, and encode with
the in-vocabulary check / fallback 0. -/
def encodedValues (st : ServerState) (r : PredictRequest) : List Nat :=
  (userInputs r).map (fun p => encode (st.encoders p.1) p.2)

/-- The JSON body returned by `/api/predict` (main.py, lines 235-239). -/
structure PredictResponse where
  probability : ℚ
  risk_level : String
  inputs : List (String × String)
deriving DecidableEq

/-- The `/api/predict` handler body (main.py, lines 188-239).  The handler
only reads the process-wide state; returning the (unchanged) state makes
that explicit. -/
def predict (st : ServerState) (r : PredictRequest) : PredictResponse × ServerState :=
  let proba := st.model (encodedValues st r)
  let risk_pct := round1 (proba.2 * 100)
  ({ probability := risk_pct, risk_level := riskLevel risk_pct,
     inputs := userInputs r }, st)

/-- Sanity: the keys of the `user_inputs` dict are exactly the feature
columns, in the order the encoding loop iterates them. -/
theorem userInputs_keys (r : PredictRequest) :
    (userInputs r).map Prod.fst = FEATURE_COLS := rfl

/-- C1: the risk-tier function is total on every percentage and returns
"Low Risk" when `x < 35`, "Moderate Risk" when `35 ≤ x < 55`, "High Risk"
when `x ≥ 55`; in particular `tier(34.9) = "Low Risk"`,
`tier(35.0) = "Moderate Risk"`, `tier(54.9) = "Moderate Risk"` and
`tier(55.0) = "High Risk"`. -/
theorem risk_tier_breakpoints (x : ℚ) :
    (x < 35 → riskLevel x = "Low Risk") ∧
    (35 ≤ x → x < 55 → riskLevel x = "Moderate Risk") ∧
    (55 ≤ x → riskLevel x = "High Risk") ∧
    riskLevel (349 / 10) = "Low Risk" ∧
    riskLevel 35 = "Moderate Risk" ∧
    riskLevel (549 / 10) = "Moderate Risk" ∧
    riskLevel 55 = "High Risk" := by
  refine ⟨fun h => ?_, fun h1 h2 => ?_, fun h => ?_, ?_, ?_, ?_, ?_⟩
  · rw [riskLevel, if_pos h]
  · rw [riskLevel, if_neg (by linarith), if_pos h2]
  · rw [riskLevel, if_neg (by linarith), if_neg (by linarith)]
  · rw [riskLevel, if_pos (by norm_num)]
  · rw [riskLevel, if_neg (by norm_num), if_pos (by norm_num)]
  · rw [riskLevel, if_neg (by norm_num), if_pos (by norm_num)]
  · rw [riskLevel, if_neg (by norm_num), if_neg (by norm_num)]

/-- Witness for C1: the three tier branches, each realized at a concrete
percentage. -/
theorem risk_tier_breakpoints_witness :
    riskLevel 10 = "Low Risk" ∧ riskLevel 40 = "Moderate Risk" ∧
    riskLevel 60 = "High Risk" :=
  ⟨(risk_tier_breakpoints 10).1 (by norm_num),
   (risk_tier_breakpoints 40).2.1 (by norm_num) (by norm_num),
   (risk_tier_breakpoints 60).2.2.1 (by norm_num)⟩

/-- C2: inference-time encoding returns the encoder's own code
(`le.transform`) whenever the raw value is in the encoder's label set, and
the fixed fallback code 0 otherwise; it is a total function, so it never
fails. -/
theorem encode_fallback (e : Encoder) (v : String) :
    (v ∈ e.classes → encode e v = e.transform v) ∧
    (v ∉ e.classes → encode e v = 0) := by
  constructor
  · intro h; rw [encode, if_pos h]
  · intro h; rw [encode, if_neg h]

/-- Witness for C2: a concrete encoder, one in-vocabulary value and one
unseen value. -/
theorem encode_fallback_witness :
    ("Yes" ∈ (Encoder.mk ["No", "Yes"]).classes ∧
      encode ⟨["No", "Yes"]⟩ "Yes" = Encoder.transform ⟨["No", "Yes"]⟩ "Yes") ∧
    ("Sometimes" ∉ (Encoder.mk ["No", "Yes"]).classes ∧
      encode ⟨["No", "Yes"]⟩ "Sometimes" = 0) :=
  ⟨⟨by decide, (encode_fallback ⟨["No", "Yes"]⟩ "Yes").1 (by decide)⟩,
   ⟨by decide, (encode_fallback ⟨["No", "Yes"]⟩ "Sometimes").2 (by decide)⟩⟩

theorem fitEncoder_nodup (col : List String) : (fitEncoder col).classes.Nodup :=
  (List.perm_insertionSort strLe col.dedup).nodup_iff.mpr (List.nodup_dedup col)

theorem fitEncoder_mem (col : List String) (v : String) :
    v ∈ (fitEncoder col).classes ↔ v ∈ col := by
  rw [fitEncoder, List.mem_insertionSort, List.mem_dedup]

theorem fitEncoder_sorted (col : List String) :
    (fitEncoder col).classes.Sorted strLe :=
  List.sorted_insertionSort strLe col.dedup

theorem fitEncoder_length (col : List String) :
    (fitEncoder col).classes.length = col.dedup.length :=
  (List.perm_insertionSort strLe col.dedup).length_eq

theorem nodup_map_indexOf_eq_range {l : List String} (h : l.Nodup) :
    l.map l.indexOf = List.range l.length := by
  apply List.ext_get (by simp)
  intro i h1 h2
  simp only [List.get_eq_getElem, List.getElem_map, List.getElem_range]
  exact List.indexOf_getElem h i (by simpa using h1)

/-- C5: fitting a feature encoder (after canonicalizing missing values to
"Unknown") assigns to the distinct observed labels exactly the codes
`0..k-1`, `k` being the number of distinct observed labels, and re-fitting
on identical input yields identical codes. -/
theorem encoder_codes_cover (col col₂ : List (Option String)) (hdet : col = col₂) :
    (∀ v, v ∈ (fitEncoder (canonicalize col)).classes ↔ v ∈ canonicalize col) ∧
    (fitEncoder (canonicalize col)).classes.map
        (fitEncoder (canonicalize col)).transform
      = List.range (fitEncoder (canonicalize col)).classes.length ∧
    (fitEncoder (canonicalize col)).classes.length
      = (canonicalize col).dedup.length ∧
    fitEncoder (canonicalize col) = fitEncoder (canonicalize col₂) := by
  subst hdet
  refine ⟨fitEncoder_mem _, ?_, fitEncoder_length _, rfl⟩
  exact nodup_map_indexOf_eq_range (fitEncoder_nodup _)

/-- Witness for C5: a concrete three-row column with one missing cell and a
repeated label; distinct labels "Unknown" and "Yes" receive codes 0 and 1. -/
theorem encoder_codes_cover_witness :
    ((∀ v, v ∈ (fitEncoder (canonicalize [some "Yes", none, some "Yes"])).classes
        ↔ v ∈ canonicalize [some "Yes", none, some "Yes"]) ∧
      (fitEncoder (canonicalize [some "Yes", none, some "Yes"])).classes.map
          (fitEncoder (canonicalize [some "Yes", none, some "Yes"])).transform
        = List.range
            (fitEncoder (canonicalize [some "Yes", none, some "Yes"])).classes.length ∧
      (fitEncoder (canonicalize [some "Yes", none, some "Yes"])).classes.length
        = (canonicalize [some "Yes", none, some "Yes"]).dedup.length ∧
      fitEncoder (canonicalize [some "Yes", none, some "Yes"])
        = fitEncoder (canonicalize [some "Yes", none, some "Yes"])) ∧
    (fitEncoder (canonicalize [some "Yes", none, some "Yes"])).classes
      = ["Unknown", "Yes"] :=
  ⟨encoder_codes_cover [some "Yes", none, some "Yes"] [some "Yes", none, some "Yes"] rfl,
   by decide⟩

/-- C9: for an encoder fit on a non-empty column the fallback code 0 is
also the code of an in-vocabulary label, namely the lexicographically
smallest observed label, so any unseen value encodes to the same integer
as that label: the fallback-extended encoding is never injective. -/
theorem fallback_code_collides (col : List String) (hcol : col ≠ [])
    (u : String) (hu : u ∉ (fitEncoder col).classes) :
    ∃ lab ∈ (fitEncoder col).classes,
      (∀ l ∈ (fitEncoder col).classes, strLe lab l) ∧
      encode (fitEncoder col) lab = 0 ∧
      encode (fitEncoder col) u = encode (fitEncoder col) lab := by
  obtain ⟨a, ha⟩ := List.exists_mem_of_ne_nil col hcol
  have hne : (fitEncoder col).classes ≠ [] :=
    List.ne_nil_of_mem ((fitEncoder_mem col a).mpr ha)
  obtain ⟨lab, rest, hcls⟩ := List.exists_cons_of_ne_nil hne
  have hmem : lab ∈ (fitEncoder col).classes := by
    rw [hcls]; exact List.mem_cons_self _ _
  have hsorted := fitEncoder_sorted col
  rw [hcls] at hsorted
  obtain ⟨hmin, -⟩ := List.sorted_cons.mp hsorted
  refine ⟨lab, hmem, ?_, ?_, ?_⟩
  · intro l hl
    rw [hcls] at hl
    rcases List.mem_cons.mp hl with h | h
    · rw [h]; exact le_refl lab.data
    · exact hmin l h
  · rw [encode, if_pos hmem, Encoder.transform, hcls, List.indexOf_cons_self]
  · rw [encode, if_neg hu, encode, if_pos hmem, Encoder.transform, hcls,
      List.indexOf_cons_self]

/-- Witness for C9: the encoder fit on the column `["B", "A"]` maps both
the unseen value "C" and the in-vocabulary label "A" to 0. -/
theorem fallback_code_collides_witness :
    (["B", "A"] ≠ ([] : List String)) ∧
    ("C" ∉ (fitEncoder ["B", "A"]).classes) ∧
    ∃ lab ∈ (fitEncoder ["B", "A"]).classes,
      (∀ l ∈ (fitEncoder ["B", "A"]).classes, strLe lab l) ∧
      encode (fitEncoder ["B", "A"]) lab = 0 ∧
      encode (fitEncoder ["B", "A"]) "C" = encode (fitEncoder ["B", "A"]) lab :=
  ⟨by decide, by decide, fallback_code_collides ["B", "A"] (by decide) "C" (by decide)⟩

/-- C8: given a fixed loaded artifact, the `/api/predict` handler is a pure
function of its ten raw answers — identical requests produce identical
responses — and it leaves the process-wide state unchanged. -/
theorem predict_pure (st : ServerState) (r₁ r₂ : PredictRequest) (h : r₁ = r₂) :
    (predict st r₁).1 = (predict st r₂).1 ∧ (predict st r₁).2 = st := by
  subst h; exact ⟨rfl, rfl⟩

theorem mem_classRows {lab : Nat} {ts : List Sample} {s : Sample} :
    s ∈ classRows lab ts ↔ s ∈ ts ∧ s.2 = lab := by
  simp [classRows, List.mem_filter]

theorem classRows_label {lab : Nat} {ts : List Sample} {s : Sample}
    (h : s ∈ classRows lab ts) : s.2 = lab :=
  (mem_classRows.mp h).2

theorem resampled_mem {ts : List Sample} {choices : List Nat}
    (hlt : ∀ i ∈ choices, i < (classRows 1 ts).length) {s : Sample}
    (hs : s ∈ choices.map (fun i => (classRows 1 ts).getD i ([], 0))) :
    s ∈ classRows 1 ts := by
  obtain ⟨i, hi, rfl⟩ := List.mem_map.mp hs
  rw [List.getD_eq_getElem _ _ (hlt i hi)]
  exact List.getElem_mem _

theorem classRows_append (lab : Nat) (l₁ l₂ : List Sample) :
    classRows lab (l₁ ++ l₂) = classRows lab l₁ ++ classRows lab l₂ :=
  List.filter_append _ _

theorem classRows_of_all {lab : Nat} {l : List Sample}
    (h : ∀ s ∈ l, s.2 = lab) : classRows lab l = l := by
  rw [classRows, List.filter_eq_self]
  intro s hs
  simpa using h s hs

theorem classRows_of_none {lab : Nat} {l : List Sample}
    (h : ∀ s ∈ l, s.2 ≠ lab) : classRows lab l = [] := by
  rw [classRows, List.filter_eq_nil_iff]
  intro s hs
  simpa using h s hs

/-- C4 (amended): under the index draws `np.random.choice` can actually
produce, the balanced set has exactly equal class-0 and class-1 counts
(each the input's class-0 count), its class-0 rows are a verbatim copy of
the input's class-0 rows, and its total size is `2 × class-0 count` —
which is `2 × majority count` whenever class 0 is the majority, but not
when class 1 is (see the counterexample). -/
theorem oversample_balances (ts : List Sample) (choices : List Nat)
    (hlen : choices.length = (classRows 0 ts).length)
    (hlt : ∀ i ∈ choices, i < (classRows 1 ts).length) :
    classRows 0 (oversample ts choices) = classRows 0 ts ∧
    (classRows 1 (oversample ts choices)).length
      = (classRows 0 (oversample ts choices)).length ∧
    (oversample ts choices).length = 2 * (classRows 0 ts).length ∧
    ((classRows 1 ts).length ≤ (classRows 0 ts).length →
      (oversample ts choices).length
        = 2 * max (classRows 0 ts).length (classRows 1 ts).length) := by
  have hR1 : ∀ s ∈ choices.map (fun i => (classRows 1 ts).getD i ([], 0)), s.2 = 1 :=
    fun s hs => classRows_label (resampled_mem hlt hs)
  have h00 : classRows 0 (classRows 0 ts) = classRows 0 ts :=
    classRows_of_all (fun s hs => classRows_label hs)
  have h0R : classRows 0 (choices.map (fun i => (classRows 1 ts).getD i ([], 0))) = [] :=
    classRows_of_none (fun s hs => by rw [hR1 s hs]; exact one_ne_zero)
  have h10 : classRows 1 (classRows 0 ts) = [] :=
    classRows_of_none (fun s hs => by rw [classRows_label hs]; exact zero_ne_one)
  have h1R : classRows 1 (choices.map (fun i => (classRows 1 ts).getD i ([], 0)))
      = choices.map (fun i => (classRows 1 ts).getD i ([], 0)) :=
    classRows_of_all hR1
  have hc0 : classRows 0 (oversample ts choices) = classRows 0 ts := by
    rw [oversample, classRows_append, h00, h0R, List.append_nil]
  refine ⟨hc0, ?_, ?_, ?_⟩
  · rw [oversample, classRows_append, h10, h1R, List.nil_append, List.length_map,
      hlen, ← oversample, hc0]
  · rw [oversample, List.length_append, List.length_map, hlen, two_mul]
  · intro hle
    rw [Nat.max_eq_left hle, oversample, List.length_append, List.length_map, hlen,
      two_mul]

/-- Witness for C4: the balancer applied to a 3-row corpus with one
class-1 row and two class-0 rows, drawing index 0 twice. -/
theorem oversample_balances_witness :
    (([0, 0] : List Nat).length
        = (classRows 0 [([3], 0), ([4], 0), ([7], 1)]).length ∧
      ∀ i ∈ ([0, 0] : List Nat),
        i < (classRows 1 [([3], 0), ([4], 0), ([7], 1)]).length) ∧
    (classRows 0 (oversample [([3], 0), ([4], 0), ([7], 1)] [0, 0])
        = classRows 0 [([3], 0), ([4], 0), ([7], 1)] ∧
      (classRows 1 (oversample [([3], 0), ([4], 0), ([7], 1)] [0, 0])).length
        = (classRows 0 (oversample [([3], 0), ([4], 0), ([7], 1)] [0, 0])).length ∧
      (oversample [([3], 0), ([4], 0), ([7], 1)] [0, 0]).length
        = 2 * (classRows 0 [([3], 0), ([4], 0), ([7], 1)]).length ∧
      ((classRows 1 [([3], 0), ([4], 0), ([7], 1)]).length
          ≤ (classRows 0 [([3], 0), ([4], 0), ([7], 1)]).length →
        (oversample [([3], 0), ([4], 0), ([7], 1)] [0, 0]).length
          = 2 * max (classRows 0 [([3], 0), ([4], 0), ([7], 1)]).length
              (classRows 1 [([3], 0), ([4], 0), ([7], 1)]).length)) :=
  ⟨⟨by decide, by decide⟩,
   oversample_balances [([3], 0), ([4], 0), ([7], 1)] [0, 0] (by decide) (by decide)⟩

/-- Counterexample for C4: a class-imbalanced corpus whose majority class
is class 1 (one class-0 row, two class-1 rows).  The draw `[0]` is one
`np.random.choice` can produce (length `len(X_0) = 1`, entry `0 < 2 =
len(X_1)`), yet the balanced set has 2 rows, not `2 × majority = 4`. -/
theorem oversample_majority_counterexample :
    (classRows 0 [([0], 0), ([1], 1), ([2], 1)]).length = 1 ∧
    (classRows 1 [([0], 0), ([1], 1), ([2], 1)]).length = 2 ∧
    ([0] : List Nat).length = (classRows 0 [([0], 0), ([1], 1), ([2], 1)]).length ∧
    (0 : Nat) < (classRows 1 [([0], 0), ([1], 1), ([2], 1)]).length ∧
    (oversample [([0], 0), ([1], 1), ([2], 1)] [0]).length
      ≠ 2 * max (classRows 0 [([0], 0), ([1], 1), ([2], 1)]).length
          (classRows 1 [([0], 0), ([1], 1), ([2], 1)]).length := by
  decide

/-- C10: every sample the balancer outputs is a sample of the input
TrainingSet (feature vector and label unchanged), and every sample of the
appended resampled block has label 1. -/
theorem oversample_no_fabrication (ts : List Sample) (choices : List Nat)
    (hlt : ∀ i ∈ choices, i < (classRows 1 ts).length) :
    (∀ s ∈ oversample ts choices, s ∈ ts) ∧
    (∀ s ∈ choices.map (fun i => (classRows 1 ts).getD i ([], 0)), s.2 = 1) := by
  constructor
  · intro s hs
    rw [oversample] at hs
    rcases List.mem_append.mp hs with h | h
    · exact (mem_classRows.mp h).1
    · exact (mem_classRows.mp (resampled_mem hlt h)).1
  · intro s hs
    exact classRows_label (resampled_mem hlt hs)

/-- Witness for C10: concrete corpus and draws. -/
theorem oversample_no_fabrication_witness :
    (∀ i ∈ ([0, 0] : List Nat),
      i < (classRows 1 [([3], 0), ([4], 0), ([7], 1)]).length) ∧
    (∀ s ∈ oversample [([3], 0), ([4], 0), ([7], 1)] [0, 0],
      s ∈ [([3], 0), ([4], 0), ([7], 1)]) ∧
    (∀ s ∈ ([0, 0] : List Nat).map
        (fun i => (classRows 1 [([3], 0), ([4], 0), ([7], 1)]).getD i ([], 0)),
      s.2 = 1) :=
  ⟨by decide,
   oversample_no_fabrication [([3], 0), ([4], 0), ([7], 1)] [0, 0] (by decide)⟩

/-- Counterexample for C3: the oversampling draws come from the global
NumPy random state, which `train_model.py` never seeds; the training seed
38 appears only in the `RandomForestClassifier` constructor.  Two runs on
the same corpus with the same seed can therefore draw different index
sequences — here `[0]` and `[1]`, both of the length-and-range shape
`np.random.choice(np.arange(2), size=1)` returns — and produce different
balanced training sets. -/
theorem oversample_unseeded_counterexample :
    ([0] : List Nat).length = (classRows 0 [([5], 0), ([1], 1), ([2], 1)]).length ∧
    ([1] : List Nat).length = (classRows 0 [([5], 0), ([1], 1), ([2], 1)]).length ∧
    (0 : Nat) < (classRows 1 [([5], 0), ([1], 1), ([2], 1)]).length ∧
    (1 : Nat) < (classRows 1 [([5], 0), ([1], 1), ([2], 1)]).length ∧
    oversample [([5], 0), ([1], 1), ([2], 1)] [0]
      ≠ oversample [([5], 0), ([1], 1), ([2], 1)] [1] := by
  decide

/-- C3 (amended): training is deterministic given a fixed seed, a fixed
TrainingSet ordering AND a fixed oversampling draw sequence; since the
draw sequence comes from an unseeded source, the seed and ordering alone
do not determine the balanced set (see the counterexample).  `fitModel`
abstracts the seed-keyed sklearn `RandomForestClassifier.fit`. -/
theorem training_deterministic_given_draws {M : Type}
    (fitModel : Nat → List Sample → M) (ts : List Sample) (seed : Nat)
    (ch₁ ch₂ : List Nat) (h : ch₁ = ch₂) :
    oversample ts ch₁ = oversample ts ch₂ ∧
    fitModel seed (oversample ts ch₁) = fitModel seed (oversample ts ch₂) := by
  subst h
  exact ⟨rfl, rfl⟩

/-- Witness for C3: a concrete corpus, seed 38 and a repeated draw
sequence. -/
theorem training_deterministic_given_draws_witness :
    oversample [([0], 0), ([1], 1)] [0] = oversample [([0], 0), ([1], 1)] [0] ∧
    (fun _ b => b : Nat → List Sample → List Sample) 38
        (oversample [([0], 0), ([1], 1)] [0])
      = (fun _ b => b : Nat → List Sample → List Sample) 38
          (oversample [([0], 0), ([1], 1)] [0]) :=
  training_deterministic_given_draws (fun _ b => b) [([0], 0), ([1], 1)] 38 [0] [0] rfl

/-- Counterexample for C6: fitting on the empty column does not signal a
configuration error — the fit step succeeds, returning an encoder with
zero categories and an empty encoded column. -/
theorem empty_column_no_config_error :
    fitColumn [] = Except.ok (Encoder.mk [], []) ∧
    (fitEncoder (canonicalize [])).classes.length = 0 :=
  ⟨rfl, rfl⟩

/-- C6 (amended): the encoder fit step never signals an error on any
column — sklearn's `LabelEncoder` does no validation — and on the empty
column it succeeds with an encoder of zero categories; training is not
aborted at fit time. -/
theorem fit_never_signals_error (col : List (Option String)) :
    (∃ res, fitColumn col = Except.ok res) ∧
    (fitEncoder (canonicalize [])).classes = [] :=
  ⟨⟨_, rfl⟩, rfl⟩

theorem trainLabels_length (targets : List String) :
    (trainLabels targets).length = targets.length := by
  simp [trainLabels, yRaw]

theorem mem_yRaw {targets : List String} {v : String} (h : v ∈ yRaw targets) :
    v = "Yes" ∨ v = "No" := by
  obtain ⟨t, -, rfl⟩ := List.mem_map.mp h
  by_cases ht : t = POSITIVE_CLASS <;> simp [ht]

theorem yes_mem_yRaw {targets : List String} :
    "Yes" ∈ yRaw targets ↔ ∃ t ∈ targets, t = POSITIVE_CLASS := by
  simp only [yRaw, List.mem_map]
  constructor
  · rintro ⟨t, ht, he⟩
    by_cases h : t = POSITIVE_CLASS
    · exact ⟨t, ht, h⟩
    · rw [if_neg h] at he
      exact absurd he (by decide)
  · rintro ⟨t, ht, h⟩
    exact ⟨t, ht, by rw [if_pos h]⟩

theorem no_mem_yRaw {targets : List String} :
    "No" ∈ yRaw targets ↔ ∃ t ∈ targets, t ≠ POSITIVE_CLASS := by
  simp only [yRaw, List.mem_map]
  constructor
  · rintro ⟨t, ht, he⟩
    by_cases h : t = POSITIVE_CLASS
    · rw [if_pos h] at he
      exact absurd he (by decide)
    · exact ⟨t, ht, h⟩
  · rintro ⟨t, ht, h⟩
    exact ⟨t, ht, by rw [if_neg h]⟩

theorem target_classes_of_mixed {targets : List String}
    (hno : "No" ∈ yRaw targets) (hyes : "Yes" ∈ yRaw targets) :
    (fitEncoder (yRaw targets)).classes = ["No", "Yes"] := by
  apply List.eq_of_perm_of_sorted (r := strLe) ?_ (fitEncoder_sorted _) (by decide)
  apply (List.perm_ext_iff_of_nodup (fitEncoder_nodup _) (by decide)).mpr
  intro v
  rw [fitEncoder_mem]
  constructor
  · intro hv
    rcases mem_yRaw hv with h | h <;> simp [h]
  · intro hv
    rcases List.mem_cons.mp hv with h | h
    · rw [h]; exact hno
    · rw [List.mem_singleton.mp h]; exact hyes

theorem target_classes_of_no_only {targets : List String}
    (hno : "No" ∈ yRaw targets) (hyes : "Yes" ∉ yRaw targets) :
    (fitEncoder (yRaw targets)).classes = ["No"] := by
  apply List.eq_of_perm_of_sorted (r := strLe) ?_ (fitEncoder_sorted _) (by decide)
  apply (List.perm_ext_iff_of_nodup (fitEncoder_nodup _) (by decide)).mpr
  intro v
  rw [fitEncoder_mem]
  constructor
  · intro hv
    rcases mem_yRaw hv with h | h
    · exact absurd (h ▸ hv) hyes
    · simp [h]
  · intro hv
    rw [List.mem_singleton.mp hv]
    exact hno

/-- Counterexample for C7: on a training corpus whose every target row is
the positive string, the target LabelEncoder observes only the mapped
value "Yes" and assigns it code 0, so the positive row gets label 0, not
1 as the claim requires. -/
theorem positive_only_label_counterexample :
    trainLabels ["It is a Disease"] = [0] ∧
    trainLabels ["It is a Disease"] ≠ [1] := by
  decide

/-- C7 (amended): for every training corpus whose target column contains
at least one non-positive value, the produced binary label of each row is
1 exactly when the row's raw target equals "It is a Disease" and 0
otherwise; on a corpus where every row is positive, every label is 0
instead (see the counterexample). -/
theorem binary_label_rule (targets : List String)
    (hneg : ∃ t ∈ targets, t ≠ POSITIVE_CLASS) (i : Nat)
    (hi : i < targets.length) :
    (trainLabels targets).getD i 0
      = if targets.getD i "" = POSITIVE_CLASS then 1 else 0 := by
  have hno : "No" ∈ yRaw targets := no_mem_yRaw.mpr hneg
  have hyl : (yRaw targets).length = targets.length := by simp [yRaw]
  have hyi : i < (yRaw targets).length := hyl ▸ hi
  have hli : i < (trainLabels targets).length := (trainLabels_length targets) ▸ hi
  rw [List.getD_eq_getElem _ _ hli, List.getD_eq_getElem _ _ hi]
  simp only [trainLabels, yRaw, List.getElem_map]
  by_cases hp : targets[i] = POSITIVE_CLASS
  · rw [if_pos hp, if_pos hp]
    have hyes : "Yes" ∈ yRaw targets :=
      yes_mem_yRaw.mpr ⟨targets[i], List.getElem_mem _, hp⟩
    rw [Encoder.transform, ← yRaw, target_classes_of_mixed hno hyes]
    decide
  · rw [if_neg hp, if_neg hp]
    by_cases hyes : "Yes" ∈ yRaw targets
    · rw [Encoder.transform, ← yRaw, target_classes_of_mixed hno hyes]
      decide
    · rw [Encoder.transform, ← yRaw, target_classes_of_no_only hno hyes]
      decide

/-- Witness for C7: the mixed two-row corpus; the positive first row gets
label 1. -/
theorem binary_label_rule_witness :
    (∃ t ∈ ["It is a Disease", "x"], t ≠ POSITIVE_CLASS) ∧
    (0 : Nat) < (["It is a Disease", "x"] : List String).length ∧
    (trainLabels ["It is a Disease", "x"]).getD 0 0
      = if (["It is a Disease", "x"] : List String).getD 0 "" = POSITIVE_CLASS
        then 1 else 0 :=
  ⟨⟨"x", by decide, by decide⟩, by decide,
   binary_label_rule ["It is a Disease", "x"] ⟨"x", by decide, by decide⟩ 0 (by decide)⟩

/-- Witness for C8: a concrete artifact and a concrete repeated request. -/
theorem predict_pure_witness :
    (predict ⟨fun _ => (1 / 2, 1 / 2), fun _ => ⟨["No", "Yes"]⟩⟩
        ⟨"a", "a", "a", "a", "a", "a", "a", "a", "a", "a"⟩).1
      = (predict ⟨fun _ => (1 / 2, 1 / 2), fun _ => ⟨["No", "Yes"]⟩⟩
          ⟨"a", "a", "a", "a", "a", "a", "a", "a", "a", "a"⟩).1 ∧
    (predict ⟨fun _ => (1 / 2, 1 / 2), fun _ => ⟨["No", "Yes"]⟩⟩
        ⟨"a", "a", "a", "a", "a", "a", "a", "a", "a", "a"⟩).2
      = ⟨fun _ => (1 / 2, 1 / 2), fun _ => ⟨["No", "Yes"]⟩⟩ :=
  predict_pure ⟨fun _ => (1 / 2, 1 / 2), fun _ => ⟨["No", "Yes"]⟩⟩
    ⟨"a", "a", "a", "a", "a", "a", "a", "a", "a", "a"⟩
    ⟨"a", "a", "a", "a", "a", "a", "a", "a", "a", "a"⟩ rfl

